import Mathlib

set_option maxHeartbeats 1000000

/-!
Shallow embedding of the NSM (Nitro Secure Module) core of the
aws-nitro-enclaves-python-sdk repository.

Byte strings are `List Nat` with each entry a byte value; 32-bit words are
`Nat` reduced modulo `2 ^ 32` where overflow matters.

Layers, mirroring the repository:
 * SHA-256 (the code calls `hashlib.sha256`; embedded here as an executable
   function over byte lists).
 * The native session (`_native.c` is referenced by `_cffi_build.py` but its
   source is not part of the Python tree; the session struct and the
   `nsm_*` operations are modelled from the spec, using the struct layout
   and error codes declared in `_cffi_build.py`).
 * `_transport.py`: `_raise_error` and the `NsmTransport` methods,
   embedded from the Python source.
 * `client.py`: the `NsmClient` methods with their argument guards,
   embedded from the Python source.
-/

/-! ## SHA-256 over byte lists -/

/-- Reduce a natural number to a 32-bit word. -/
def w32 (n : Nat) : Nat := n % 4294967296

/-- Right rotation of a 32-bit word by `n` bits. -/
def rotr32 (n x : Nat) : Nat := w32 ((x >>> n) ||| (x <<< (32 - n)))

/-- SHA-256 small sigma 0. -/
def ssig0 (x : Nat) : Nat := (rotr32 7 x) ^^^ (rotr32 18 x) ^^^ (x >>> 3)

/-- SHA-256 small sigma 1. -/
def ssig1 (x : Nat) : Nat := (rotr32 17 x) ^^^ (rotr32 19 x) ^^^ (x >>> 10)

/-- SHA-256 big sigma 0. -/
def bsig0 (x : Nat) : Nat := (rotr32 2 x) ^^^ (rotr32 13 x) ^^^ (rotr32 22 x)

/-- SHA-256 big sigma 1. -/
def bsig1 (x : Nat) : Nat := (rotr32 6 x) ^^^ (rotr32 11 x) ^^^ (rotr32 25 x)

/-- The 64 SHA-256 round constants. -/
def sha256K : List Nat :=
  [1116352408, 1899447441, 3049323471, 3921009573, 961987163, 1508970993,
   2453635748, 2870763221, 3624381080, 310598401, 607225278, 1426881987,
   1925078388, 2162078206, 2614888103, 3248222580, 3835390401, 4022224774,
   264347078, 604807628, 770255983, 1249150122, 1555081692, 1996064986,
   2554220882, 2821834349, 2952996808, 3210313671, 3336571891, 3584528711,
   113926993, 338241895, 666307205, 773529912, 1294757372, 1396182291,
   1695183700, 1986661051, 2177026350, 2456956037, 2730485921, 2820302411,
   3259730800, 3345764771, 3516065817, 3600352804, 4094571909, 275423344,
   430227734, 506948616, 659060556, 883997877, 958139571, 1322822218,
   1537002063, 1747873779, 1955562222, 2024104815, 2227730452, 2361852424,
   2428436474, 2756734187, 3204031479, 3329325298]

/-- The SHA-256 initial hash state. -/
def sha256H0 : List Nat :=
  [1779033703, 3144134277, 1013904242, 2773480762,
   1359893119, 2600822924, 528734635, 1541459225]

/-- Group a byte list into big-endian 32-bit words. -/
def toWordsBE : List Nat → List Nat
  | b0 :: b1 :: b2 :: b3 :: rest =>
      (((b0 * 256 + b1) * 256 + b2) * 256 + b3) :: toWordsBE rest
  | _ => []

/-- Extend a 16-word message schedule by `fuel` further words. -/
def schedExtend : Nat → List Nat → List Nat
  | 0, ws => ws
  | fuel + 1, ws =>
      let n := ws.length
      let wt := w32 (ssig1 (ws.getD (n - 2) 0) + ws.getD (n - 7) 0 +
                     ssig0 (ws.getD (n - 15) 0) + ws.getD (n - 16) 0)
      schedExtend fuel (ws ++ [wt])

/-- One SHA-256 round: fold the key-plus-schedule word `kw` into the
eight-word working state. -/
def sha256Round (st : List Nat) (kw : Nat) : List Nat :=
  match st with
  | [a, b, c, d, e, f, g, h] =>
      let ch := (e &&& f) ^^^ ((e ^^^ 4294967295) &&& g)
      let maj := (a &&& b) ^^^ (a &&& c) ^^^ (b &&& c)
      let t1 := w32 (h + bsig1 e + ch + kw)
      let t2 := w32 (bsig0 a + maj)
      [w32 (t1 + t2), a, b, c, w32 (d + t1), e, f, g]
  | other => other

/-- Compress one 64-byte block into the hash state. -/
def sha256Block (h : List Nat) (block : List Nat) : List Nat :=
  let ws := schedExtend 48 (toWordsBE block)
  let kws := (List.zip sha256K ws).map (fun p => w32 (p.1 + p.2))
  let st := kws.foldl sha256Round h
  (List.zip h st).map (fun p => w32 (p.1 + p.2))

/-- Split a byte list into 64-byte chunks (fuelled recursion). -/
def chunks64 : Nat → List Nat → List (List Nat)
  | 0, _ => []
  | _ + 1, [] => []
  | fuel + 1, l => l.take 64 :: chunks64 fuel (l.drop 64)

/-- SHA-256 padding: append `0x80`, zero bytes up to 56 mod 64, then the
bit length as 8 big-endian bytes. -/
def sha256Pad (msg : List Nat) : List Nat :=
  let len := msg.length
  let zeros := (119 - len % 64) % 64
  let bitLen := len * 8
  msg ++ [128] ++ List.replicate zeros 0 ++
    [(bitLen >>> 56) &&& 255, (bitLen >>> 48) &&& 255, (bitLen >>> 40) &&& 255,
     (bitLen >>> 32) &&& 255, (bitLen >>> 24) &&& 255, (bitLen >>> 16) &&& 255,
     (bitLen >>> 8) &&& 255, bitLen &&& 255]

/-- Serialise a 32-bit word as 4 big-endian bytes. -/
def word32Bytes (w : Nat) : List Nat :=
  [(w >>> 24) &&& 255, (w >>> 16) &&& 255, (w >>> 8) &&& 255, w &&& 255]

/-- SHA-256 of a byte list, as a 32-byte list.  Hashing the concatenation of
several buffers models a Python `hashlib.sha256()` object fed those buffers
by successive `update` calls and then asked for `digest()`. -/
def sha256 (msg : List Nat) : List Nat :=
  let padded := sha256Pad msg
  let blocks := chunks64 padded.length padded
  let h := blocks.foldl sha256Block sha256H0
  (h.map word32Bytes).flatten

/-! ## Error taxonomy (from `errors.py`) -/

/-- The exception classes of `errors.py`: `generic` is the base `NsmError`,
the others are its subclasses. -/
inductive NsmErrKind where
  | generic
  | deviceNotFound
  | sessionClosed
  | random
  | invalidPcr
  | certificate
  | attestation
  | pcrLocked
deriving DecidableEq, Repr

/-- An `NsmError` exception value: its class, its message, and (for
`wrapped`) the `cause` exception attached via the `cause=` keyword;
`exc` carries no cause (`cause=None`). -/
inductive NsmExc where
  | exc (kind : NsmErrKind) (msg : String)
  | wrapped (kind : NsmErrKind) (msg : String) (cause : NsmExc)
deriving DecidableEq, Repr

/-- The exception's class. -/
def NsmExc.kind : NsmExc → NsmErrKind
  | .exc k _ => k
  | .wrapped k _ _ => k

/-- The exception's `__cause__` (None for exceptions raised without one). -/
def NsmExc.cause : NsmExc → Option NsmExc
  | .exc _ _ => none
  | .wrapped _ _ c => some c

/-! ## Native session model

`_cffi_build.py` declares the `nsm_session` struct (closed flag, module id,
32 PCR digests of 32 bytes, 32 lock flags, 4 certificate slots) and the
result codes below, but the C implementation `_native.c` is not part of the
Python source tree; the `nsm_*` operations are therefore modelled from the
spec. -/

def NSM_OK : Nat := 0
def NSM_ERR_INVALID_SLOT : Nat := 1
def NSM_ERR_LOCKED : Nat := 2
def NSM_ERR_INVALID_LENGTH : Nat := 3
def NSM_ERR_CERT_MISSING : Nat := 4
def NSM_ERR_NO_MEMORY : Nat := 5
def NSM_ERR_CLOSED : Nat := 6

def PCR_SLOTS : Nat := 32
def PCR_DIGEST_LEN : Nat := 32
def CERTIFICATE_SLOTS : Nat := 4

/-- The native `nsm_session` struct: a closed flag, a stable module id, the
PCR digests, the PCR lock flags, and the certificate slots (absent or a
payload). -/
structure Session where
  closed : Bool
  moduleId : String
  pcrs : List (List Nat)
  pcrLocks : List Bool
  certs : List (Option (List Nat))
deriving DecidableEq, Repr

/-- A well-formed session has exactly 32 PCR digests, 32 lock flags and 4
certificate slots, as laid out in the `nsm_session` struct. -/
def Session.wf (s : Session) : Prop :=
  s.pcrs.length = PCR_SLOTS ∧ s.pcrLocks.length = PCR_SLOTS ∧
    s.certs.length = CERTIFICATE_SLOTS

instance (s : Session) : Decidable s.wf := by
  unfold Session.wf; infer_instance

/-- Modelled from the spec: `nsm_session_new` creates an open session whose
32 PCR digests are all 32 zero bytes, all slots unlocked, all certificate
slots empty, with a stable module id assigned at creation. -/
def nsm_session_new : Session :=
  { closed := false
    moduleId := "i-0000000000000000-enc0000000000000000"
    pcrs := List.replicate PCR_SLOTS (List.replicate PCR_DIGEST_LEN 0)
    pcrLocks := List.replicate PCR_SLOTS false
    certs := List.replicate CERTIFICATE_SLOTS none }

/-- Modelled from the spec: closing is idempotent; a second close reports
`NSM_ERR_CLOSED`, a first close succeeds and flips the flag. -/
def nsm_session_close (s : Session) : Nat × Session :=
  if s.closed then (NSM_ERR_CLOSED, s)
  else (NSM_OK, { s with closed := true })

/-- The native closed query. -/
def nsm_session_is_closed (s : Session) : Bool := s.closed

/-- Modelled from the spec: reading a PCR requires an open session and a
slot in `[0, 32)` backed by an entry of the bank; a slot absent from the
bank fails like an out-of-range slot (this is the only way a read of a
valid index can fail, standing for §5's concurrently invalidated slot). -/
def nsm_describe_pcr (s : Session) (slot : Int) : Nat × List Nat :=
  if s.closed then (NSM_ERR_CLOSED, [])
  else if slot < 0 ∨ 32 ≤ slot then (NSM_ERR_INVALID_SLOT, [])
  else
    match s.pcrs.get? slot.toNat with
    | some d => (NSM_OK, d)
    | none => (NSM_ERR_INVALID_SLOT, [])

/-- Modelled from the spec: extending requires an open session, an in-range
backed slot, an unlocked slot and non-empty data; it overwrites the slot's
digest with `SHA256(old_digest || data)` and returns the new digest. -/
def nsm_extend_pcr (s : Session) (slot : Int) (data : List Nat) :
    Nat × List Nat × Session :=
  if s.closed then (NSM_ERR_CLOSED, [], s)
  else if slot < 0 ∨ 32 ≤ slot then (NSM_ERR_INVALID_SLOT, [], s)
  else
    match s.pcrs.get? slot.toNat with
    | none => (NSM_ERR_INVALID_SLOT, [], s)
    | some old =>
      if s.pcrLocks.getD slot.toNat false then (NSM_ERR_LOCKED, [], s)
      else if data.isEmpty then (NSM_ERR_INVALID_LENGTH, [], s)
      else
        let d := sha256 (old ++ data)
        (NSM_OK, d, { s with pcrs := s.pcrs.set slot.toNat d })

/-- Modelled from the spec: locking requires an open session and an
in-range slot; it sets the lock flag unconditionally (idempotent). -/
def nsm_lock_pcr (s : Session) (slot : Int) : Nat × Session :=
  if s.closed then (NSM_ERR_CLOSED, s)
  else if slot < 0 ∨ 32 ≤ slot then (NSM_ERR_INVALID_SLOT, s)
  else (NSM_OK, { s with pcrLocks := s.pcrLocks.set slot.toNat true })

/-- Lock every flag whose index (counting from `i`) is below `limit`,
leaving the others as they were. -/
def lockBelow (limit : Int) : Nat → List Bool → List Bool
  | _, [] => []
  | i, b :: rest => (if (i : Int) < limit then true else b) ::
      lockBelow limit (i + 1) rest

/-- Modelled from the spec: `lock_range(limit)` locks every slot with index
below `limit`; `limit` may exceed 32 (lock all) and `limit = 0` is a no-op;
it never fails on an open session. -/
def nsm_lock_range (s : Session) (limit : Int) : Nat × Session :=
  if s.closed then (NSM_ERR_CLOSED, s)
  else (NSM_OK, { s with pcrLocks := lockBelow limit 0 s.pcrLocks })

/-- Modelled from the spec: storing a certificate requires an open session,
a slot in `[0, 4)` and a non-empty payload (an empty payload reports
`NSM_ERR_INVALID_LENGTH`); it overwrites any prior value. -/
def nsm_set_certificate (s : Session) (slot : Int) (data : List Nat) :
    Nat × Session :=
  if s.closed then (NSM_ERR_CLOSED, s)
  else if slot < 0 ∨ 4 ≤ slot then (NSM_ERR_INVALID_SLOT, s)
  else if data.isEmpty then (NSM_ERR_INVALID_LENGTH, s)
  else (NSM_OK, { s with certs := s.certs.set slot.toNat (some data) })

/-- Modelled from the spec: reading a certificate requires an open session
and a slot in `[0, 4)`; an empty slot reports `NSM_ERR_CERT_MISSING`. -/
def nsm_describe_certificate (s : Session) (slot : Int) : Nat × List Nat :=
  if s.closed then (NSM_ERR_CLOSED, [])
  else if slot < 0 ∨ 4 ≤ slot then (NSM_ERR_INVALID_SLOT, [])
  else
    match s.certs.getD slot.toNat none with
    | some p => (NSM_OK, p)
    | none => (NSM_ERR_CERT_MISSING, [])

/-- Modelled from the spec: removing a certificate requires an open session
and a slot in `[0, 4)`; it clears the slot, idempotently. -/
def nsm_remove_certificate (s : Session) (slot : Int) : Nat × Session :=
  if s.closed then (NSM_ERR_CLOSED, s)
  else if slot < 0 ∨ 4 ≤ slot then (NSM_ERR_INVALID_SLOT, s)
  else (NSM_OK, { s with certs := s.certs.set slot.toNat none })

/-- Modelled from the spec: the per-slot lock flags, readable while the
session is open. -/
def nsm_locked_flags (s : Session) : Nat × List Bool :=
  if s.closed then (NSM_ERR_CLOSED, [])
  else (NSM_OK, s.pcrLocks)

/-- Modelled from the spec: the stable module identifier. -/
def nsm_module_id (s : Session) : String := s.moduleId

/-! ## Transport layer (from `_transport.py`) -/

/-- The f-string fragment `slot if slot is not None else '?'`. -/
def slotStr : Option Int → String
  | some i => toString i
  | none => "?"

/-- `_raise_error`: translate a native result code into the exception the
transport raises, or `none` when the code is `NSM_OK`. -/
def raise_error (code : Nat) (context : String) (slot : Option Int)
    (details : Option String) : Option NsmExc :=
  if code = NSM_OK then none
  else if code = NSM_ERR_CLOSED then
    some (.exc .sessionClosed "NSM session is closed")
  else if code = NSM_ERR_NO_MEMORY then
    some (.exc .generic "NSM native module was unable to allocate memory")
  else if code = NSM_ERR_INVALID_LENGTH then
    if context = "random" then
      some (.exc .random "Random length must be greater than zero")
    else if context = "certificate" then
      some (.exc .certificate "Certificate payload must not be empty")
    else some (.exc .generic "Invalid length for native operation")
  else if code = NSM_ERR_LOCKED then
    some (.exc .pcrLocked ("PCR slot " ++ slotStr slot ++ " is locked"))
  else if code = NSM_ERR_CERT_MISSING then
    some (.exc .certificate "Certificate slot is empty")
  else if code = NSM_ERR_INVALID_SLOT then
    if context = "pcr" then
      some (.exc .invalidPcr ("PCR slot " ++ slotStr slot ++ " is out of range"))
    else
      some (.exc .certificate
        ("Certificate slot " ++ slotStr slot ++ " is out of range"))
  else some (.exc .generic (details.getD "Operation failed"))

/-- `NsmTransport.close`: `NSM_OK` and `NSM_ERR_CLOSED` both count as
success (idempotent close); any other code is translated by
`_raise_error`. -/
def transport_close (s : Session) : Except NsmExc Session :=
  let (code, s') := nsm_session_close s
  if code = NSM_OK ∨ code = NSM_ERR_CLOSED then .ok s'
  else
    match raise_error code "general" none none with
    | some e => .error e
    | none => .ok s'

/-- `NsmTransport._locked_flags`. -/
def locked_flags (s : Session) : Except NsmExc (List Bool) :=
  let (code, flags) := nsm_locked_flags s
  match raise_error code "pcr" none none with
  | some e => .error e
  | none => .ok flags

/-- `NsmTransport._slot_locked`: fetch the flags, re-check the range
against their length, and index. -/
def slot_locked (s : Session) (slot : Int) : Except NsmExc Bool :=
  match locked_flags s with
  | .error e => .error e
  | .ok flags =>
    if slot < 0 ∨ (flags.length : Int) ≤ slot then
      .error (.exc .invalidPcr
        ("PCR slot " ++ toString slot ++ " is out of range"))
    else .ok (flags.getD slot.toNat false)

/-- `NsmTransport.describe_pcr_raw`: native digest read, error
translation, then the lock flag via `_slot_locked`. -/
def transport_describe_pcr_raw (s : Session) (slot : Int) :
    Except NsmExc (List Nat × Bool) :=
  let (code, digest) := nsm_describe_pcr s slot
  match raise_error code "pcr" (some slot) none with
  | some e => .error e
  | none =>
    match slot_locked s slot with
    | .error e => .error e
    | .ok locked => .ok (digest, locked)

/-- `NsmTransport.describe_pcr`: the digest of `describe_pcr_raw`. -/
def transport_describe_pcr (s : Session) (slot : Int) :
    Except NsmExc (List Nat) :=
  match transport_describe_pcr_raw s slot with
  | .error e => .error e
  | .ok (digest, _) => .ok digest

/-- `NsmTransport.extend_pcr`. -/
def transport_extend_pcr (s : Session) (slot : Int) (data : List Nat) :
    Except NsmExc (List Nat × Session) :=
  let (code, digest, s') := nsm_extend_pcr s slot data
  match raise_error code "pcr" (some slot) none with
  | some e => .error e
  | none => .ok (digest, s')

/-- `NsmTransport.lock_pcr`: returns `True` on success. -/
def transport_lock_pcr (s : Session) (slot : Int) :
    Except NsmExc (Bool × Session) :=
  let (code, s') := nsm_lock_pcr s slot
  match raise_error code "pcr" (some slot) none with
  | some e => .error e
  | none => .ok (true, s')

/-- `NsmTransport.lock_pcrs`: returns `True` on success. -/
def transport_lock_pcrs (s : Session) (lock_range : Int) :
    Except NsmExc (Bool × Session) :=
  let (code, s') := nsm_lock_range s lock_range
  match raise_error code "pcr" none none with
  | some e => .error e
  | none => .ok (true, s')

/-- `NsmTransport.set_certificate` (the Python-side `_certificates`
bookkeeping dict only feeds `describe_nsm`'s count and is not modelled). -/
def transport_set_certificate (s : Session) (slot : Int)
    (certificate : List Nat) : Except NsmExc Session :=
  let (code, s') := nsm_set_certificate s slot certificate
  match raise_error code "certificate" (some slot) none with
  | some e => .error e
  | none => .ok s'

/-- `NsmTransport.describe_certificate`. -/
def transport_describe_certificate (s : Session) (slot : Int) :
    Except NsmExc (List Nat) :=
  let (code, data) := nsm_describe_certificate s slot
  match raise_error code "certificate" (some slot) none with
  | some e => .error e
  | none => .ok data

/-- `NsmTransport.remove_certificate`. -/
def transport_remove_certificate (s : Session) (slot : Int) :
    Except NsmExc Session :=
  let (code, s') := nsm_remove_certificate s slot
  match raise_error code "certificate" (some slot) none with
  | some e => .error e
  | none => .ok s'

/-- The loop body of `NsmTransport._first_certificate`, over the remaining
slot indices: `NSM_OK` returns the payload, `NSM_ERR_CERT_MISSING`
continues, anything else goes through `_raise_error`. -/
def first_certificate_loop (s : Session) :
    List Nat → Except NsmExc (Option (List Nat))
  | [] => .ok none
  | slot :: rest =>
    let (code, data) := nsm_describe_certificate s (slot : Int)
    if code = NSM_OK then .ok (some data)
    else if code = NSM_ERR_CERT_MISSING then first_certificate_loop s rest
    else
      match raise_error code "certificate" (some (slot : Int)) none with
      | some e => .error e
      | none => first_certificate_loop s rest

/-- `NsmTransport._first_certificate`: scan slots `0..3` in ascending
order. -/
def first_certificate (s : Session) : Except NsmExc (Option (List Nat)) :=
  first_certificate_loop s (List.range CERTIFICATE_SLOTS)

/-- Python truthiness of an optional byte string: `if value:` runs the
update only when the value is neither `None` nor empty, so this is the
contribution of one optional input to the hash input. -/
def truthyBytes : Option (List Nat) → List Nat
  | none => []
  | some d => if d.isEmpty then [] else d

/-- `NsmTransport._attestation_digest`: one `hashlib.sha256()` object is
updated with each PCR value in iteration order, then with each truthy
optional input (`user_data`, `public_key`, `nonce`), and the digest of the
concatenation of all updated buffers is returned. -/
def attestation_digest (pcr_values : List (List Nat))
    (user_data public_key nonce : Option (List Nat)) : List Nat :=
  sha256 (pcr_values.flatten ++ truthyBytes user_data ++
    truthyBytes public_key ++ truthyBytes nonce)

/-- `[index for index, state in enumerate(flags) if state]`, counting from
`i`. -/
def lockedIndicesFrom : Nat → List Bool → List Nat
  | _, [] => []
  | i, b :: rest =>
    if b then i :: lockedIndicesFrom (i + 1) rest
    else lockedIndicesFrom (i + 1) rest

/-- The dict comprehension
`{index: self.describe_pcr(index) for index in range(PCR_SLOTS)}`, whose
values are collected in ascending key order, over the remaining indices. -/
def gather_pcrs_loop (s : Session) :
    List Nat → Except NsmExc (List (List Nat))
  | [] => .ok []
  | i :: rest =>
    match transport_describe_pcr s (i : Int) with
    | .error e => .error e
    | .ok d =>
      match gather_pcrs_loop s rest with
      | .error e => .error e
      | .ok ds => .ok (d :: ds)

/-- The PCR digests read by `get_attestation`, in ascending slot order. -/
def gather_pcrs (s : Session) : Except NsmExc (List (List Nat)) :=
  gather_pcrs_loop s (List.range PCR_SLOTS)

/-- The attestation payload dict of `NsmTransport.get_attestation`
(`timestamp`, read from the wall clock, is external input and not part of
the model; `pcrs` holds the dict's values in ascending key order). -/
structure AttestationPayload where
  module_id : String
  digest : List Nat
  pcrs : List (List Nat)
  locked_pcrs : List Nat
  certificate : Option (List Nat)
  cabundle : Option (List Nat)
  user_data : Option (List Nat)
  public_key : Option (List Nat)
  nonce : Option (List Nat)
deriving DecidableEq, Repr

/-- The `try` block of `NsmTransport.get_attestation`: read the 32 PCR
digests, compute the digest, and read the lock flags; any `NsmError`
escaping this block is what the `except` clause wraps. -/
def attestation_try_block (s : Session)
    (user_data public_key nonce : Option (List Nat)) :
    Except NsmExc (List (List Nat) × List Nat × List Nat) :=
  match gather_pcrs s with
  | .error e => .error e
  | .ok pcrs =>
    let digest := attestation_digest pcrs user_data public_key nonce
    match locked_flags s with
    | .error e => .error e
    | .ok flags => .ok (pcrs, digest, lockedIndicesFrom 0 flags)

/-- `NsmTransport.get_attestation`: reject a closed session, run the try
block (wrapping its failure as `NsmAttestationError` with the original
exception as cause), then resolve the certificate and assemble the
payload. -/
def transport_get_attestation (s : Session)
    (user_data public_key nonce : Option (List Nat)) :
    Except NsmExc AttestationPayload :=
  if nsm_session_is_closed s then
    .error (.exc .sessionClosed "NSM session is closed")
  else
    match attestation_try_block s user_data public_key nonce with
    | .error e =>
      .error (.wrapped .attestation "Unable to build attestation payload" e)
    | .ok (pcrs, digest, locked) =>
      match first_certificate s with
      | .error e => .error e
      | .ok cert =>
        .ok { module_id := nsm_module_id s, digest := digest, pcrs := pcrs,
              locked_pcrs := locked, certificate := cert, cabundle := none,
              user_data := user_data, public_key := public_key,
              nonce := nonce }

/-! ## Client layer (from `client.py`)

Each client method is modelled on a session for which `_require_transport`
succeeds, i.e. the client has been opened and holds this transport. -/

/-- The `PcrValue` dataclass of `types.py`. -/
structure PcrValue where
  slot : Int
  digest : List Nat
  locked : Bool
deriving DecidableEq, Repr

/-- `NsmClient.describe_pcr`: guard negative slots with a plain
`NsmError`, then read through the transport. -/
def client_describe_pcr (s : Session) (slot : Int) :
    Except NsmExc PcrValue :=
  if slot < 0 then .error (.exc .generic "PCR slot must be non-negative")
  else
    match transport_describe_pcr_raw s slot with
    | .error e => .error e
    | .ok (digest, locked) =>
      .ok { slot := slot, digest := digest, locked := locked }

/-- `NsmClient.extend_pcr`: guard negative slots and empty data with plain
`NsmError`s, extend through the transport, then re-read the lock flag. -/
def client_extend_pcr (s : Session) (slot : Int) (data : List Nat) :
    Except NsmExc (PcrValue × Session) :=
  if slot < 0 then .error (.exc .generic "PCR slot must be non-negative")
  else if data.isEmpty then
    .error (.exc .generic "data to extend must not be empty")
  else
    match transport_extend_pcr s slot data with
    | .error e => .error e
    | .ok (digest, s') =>
      match transport_describe_pcr_raw s' slot with
      | .error e => .error e
      | .ok (_, locked) =>
        .ok ({ slot := slot, digest := digest, locked := locked }, s')

/-- `NsmClient.set_certificate`: guard negative slots and empty payloads
with plain `NsmError`s, then store through the transport. -/
def client_set_certificate (s : Session) (slot : Int)
    (certificate : List Nat) : Except NsmExc Session :=
  if slot < 0 then
    .error (.exc .generic "certificate slot must be non-negative")
  else if certificate.isEmpty then
    .error (.exc .generic "certificate payload must not be empty")
  else transport_set_certificate s slot certificate

/-- `NsmClient.describe_certificate`. -/
def client_describe_certificate (s : Session) (slot : Int) :
    Except NsmExc (List Nat) :=
  if slot < 0 then
    .error (.exc .generic "certificate slot must be non-negative")
  else transport_describe_certificate s slot

/-- `NsmClient.remove_certificate`. -/
def client_remove_certificate (s : Session) (slot : Int) :
    Except NsmExc Session :=
  if slot < 0 then
    .error (.exc .generic "certificate slot must be non-negative")
  else transport_remove_certificate s slot

/-- `NsmClient.lock_pcr`. -/
def client_lock_pcr (s : Session) (slot : Int) :
    Except NsmExc (Bool × Session) :=
  if slot < 0 then .error (.exc .generic "PCR slot must be non-negative")
  else transport_lock_pcr s slot

/-- `NsmClient.lock_pcrs`. -/
def client_lock_pcrs (s : Session) (lock_range : Int) :
    Except NsmExc (Bool × Session) :=
  if lock_range < 0 then
    .error (.exc .generic "lock range must be non-negative")
  else transport_lock_pcrs s lock_range

/-- `NsmClient.get_attestation` builds its document from the transport
payload verbatim. -/
def client_get_attestation (s : Session)
    (user_data public_key nonce : Option (List Nat)) :
    Except NsmExc AttestationPayload :=
  transport_get_attestation s user_data public_key nonce

/-- `NsmClient.close`: close the transport only when it is open. -/
def client_close (s : Session) : Except NsmExc Session :=
  if ¬ s.closed then transport_close s else .ok s

/-- One client-level operation (the session-mutating and reading API
surface). -/
inductive ClientOp where
  | describePcr (slot : Int)
  | extendPcr (slot : Int) (data : List Nat)
  | lockPcr (slot : Int)
  | lockPcrs (lock_range : Int)
  | setCertificate (slot : Int) (certificate : List Nat)
  | describeCertificate (slot : Int)
  | removeCertificate (slot : Int)
  | getAttestation (user_data public_key nonce : Option (List Nat))
  | close
deriving DecidableEq, Repr

/-- The session resulting from one client operation: the new state on
success, the unchanged state when the operation raises (read-only
operations never rebind the session). -/
def applyClientOp (s : Session) : ClientOp → Session
  | .describePcr _ => s
  | .extendPcr slot data =>
    match client_extend_pcr s slot data with
    | .ok (_, s') => s'
    | .error _ => s
  | .lockPcr slot =>
    match client_lock_pcr s slot with
    | .ok (_, s') => s'
    | .error _ => s
  | .lockPcrs r =>
    match client_lock_pcrs s r with
    | .ok (_, s') => s'
    | .error _ => s
  | .setCertificate slot c =>
    match client_set_certificate s slot c with
    | .ok s' => s'
    | .error _ => s
  | .describeCertificate _ => s
  | .removeCertificate slot =>
    match client_remove_certificate s slot with
    | .ok s' => s'
    | .error _ => s
  | .getAttestation _ _ _ => s
  | .close =>
    match client_close s with
    | .ok s' => s'
    | .error _ => s

/-! ## Spec-side definitions (for refinement claims) -/

/-- The spec's `first_present()` (§4.2), written from the spec's words:
scan the slots in ascending order and return the first non-empty payload,
or none when all are empty. -/
def firstPresentSpec : List (Option (List Nat)) → Option (List Nat)
  | [] => none
  | some p :: _ => some p
  | none :: rest => firstPresentSpec rest

/-- The spec's digest composition (§4.4 step 3), written from the spec's
words: SHA-256 of the PCR digests concatenated in ascending slot order,
followed by `user_data`, `public_key` and `nonce`, where an absent
optional input contributes no bytes. -/
def specAttestationDigest (pcrDigests : List (List Nat))
    (user_data public_key nonce : Option (List Nat)) : List Nat :=
  sha256 (pcrDigests.flatten ++ user_data.getD [] ++ public_key.getD [] ++
    nonce.getD [])

/-! ## List helper lemmas -/

theorem listGetD_set_self {α} : ∀ (l : List α) (i : Nat) (a d : α),
    i < l.length → (l.set i a).getD i d = a
  | [], _, _, _, h => absurd h (by simp)
  | _ :: _, 0, _, _, _ => rfl
  | _ :: xs, i + 1, a, d, h =>
    listGetD_set_self xs i a d (Nat.lt_of_succ_lt_succ h)

theorem listGetD_set_ne {α} : ∀ (l : List α) (i j : Nat) (a d : α),
    i ≠ j → (l.set i a).getD j d = l.getD j d
  | [], _, _, _, _, _ => rfl
  | _ :: _, 0, 0, _, _, h => absurd rfl h
  | _ :: _, 0, _ + 1, _, _, _ => rfl
  | _ :: _, _ + 1, 0, _, _, _ => rfl
  | _ :: xs, i + 1, j + 1, a, d, h =>
    listGetD_set_ne xs i j a d (fun hh => h (congrArg Nat.succ hh))

theorem listGetD_default {α} : ∀ (l : List α) (i : Nat) (d : α),
    l.length ≤ i → l.getD i d = d
  | [], _, _, _ => rfl
  | _ :: _, 0, _, h => absurd h (by simp)
  | _ :: xs, i + 1, d, h => listGetD_default xs i d (Nat.le_of_succ_le_succ h)

theorem listGet?_eq_some_getD {α} : ∀ (l : List α) (i : Nat) (d : α),
    i < l.length → l.get? i = some (l.getD i d)
  | [], _, _, h => absurd h (by simp)
  | _ :: _, 0, _, _ => rfl
  | _ :: xs, i + 1, d, h => listGet?_eq_some_getD xs i d (Nat.lt_of_succ_lt_succ h)

theorem listGetD_set_true (l : List Bool) (i j : Nat)
    (h : l.getD j false = true) : (l.set i true).getD j false = true := by
  by_cases hij : i = j
  · subst hij
    by_cases hlt : i < l.length
    · rw [listGetD_set_self l i true false hlt]
    · rw [listGetD_default l i false (Nat.le_of_not_lt hlt)] at h
      exact absurd h (by simp)
  · rw [listGetD_set_ne l i j true false hij]; exact h

theorem getD_append_cons {α} : ∀ (pre : List α) (x : α) (post : List α) (d : α),
    (pre ++ x :: post).getD pre.length d = x
  | [], _, _, _ => rfl
  | _ :: l, x, post, d => getD_append_cons l x post d

theorem lockBelow_length (limit : Int) : ∀ (j : Nat) (l : List Bool),
    (lockBelow limit j l).length = l.length
  | _, [] => rfl
  | j, _ :: rest => congrArg Nat.succ (lockBelow_length limit (j + 1) rest)

theorem lockBelow_getD (limit : Int) : ∀ (l : List Bool) (j i : Nat),
    i < l.length →
    (lockBelow limit j l).getD i false =
      if ((j + i : Nat) : Int) < limit then true else l.getD i false := by
  intro l
  induction l with
  | nil => intro j i h; simp at h
  | cons b rest ih =>
    intro j i h
    cases i with
    | zero => simp [lockBelow]
    | succ i =>
      simp only [lockBelow, List.getD_cons_succ]
      rw [ih (j + 1) i (by simpa using h)]
      have harith : ((j + 1 + i : Nat) : Int) = ((j + (i + 1) : Nat) : Int) := by
        push_cast; ring
      rw [harith]

theorem lockBelow_getD_mono (limit : Int) : ∀ (l : List Bool) (j i : Nat),
    l.getD i false = true → (lockBelow limit j l).getD i false = true := by
  intro l
  induction l with
  | nil => intro j i h; simp at h
  | cons b rest ih =>
    intro j i h
    cases i with
    | zero =>
      simp only [List.getD_cons_zero] at h
      simp [lockBelow, h]
    | succ i =>
      simp only [lockBelow, List.getD_cons_succ] at h ⊢
      exact ih (j + 1) i h

/-! ## `_raise_error` evaluation lemmas -/

theorem raise_error_ok (context : String) (slot : Option Int)
    (details : Option String) : raise_error NSM_OK context slot details = none := rfl

theorem raise_error_closed (context : String) (slot : Option Int)
    (details : Option String) :
    raise_error NSM_ERR_CLOSED context slot details =
      some (.exc .sessionClosed "NSM session is closed") := rfl

theorem raise_error_locked (slot : Int) (details : Option String) :
    raise_error NSM_ERR_LOCKED "pcr" (some slot) details =
      some (.exc .pcrLocked ("PCR slot " ++ toString slot ++ " is locked")) := rfl

theorem raise_error_invalid_slot_pcr (slot : Int) (details : Option String) :
    raise_error NSM_ERR_INVALID_SLOT "pcr" (some slot) details =
      some (.exc .invalidPcr
        ("PCR slot " ++ toString slot ++ " is out of range")) := rfl

theorem raise_error_invalid_length_cert (slot : Option Int)
    (details : Option String) :
    raise_error NSM_ERR_INVALID_LENGTH "certificate" slot details =
      some (.exc .certificate "Certificate payload must not be empty") := rfl

/-! ## Native operation lemmas -/

theorem nsm_describe_pcr_ok (s : Session) (i : Nat)
    (hopen : s.closed = false) (hi : i < 32) (hip : i < s.pcrs.length) :
    nsm_describe_pcr s (i : Int) = (NSM_OK, s.pcrs.getD i []) := by
  have hrange : ¬((i : Int) < 0 ∨ 32 ≤ (i : Int)) := by omega
  simp only [nsm_describe_pcr, hopen, Bool.false_eq_true, if_false,
    if_neg hrange, Int.toNat_ofNat, listGet?_eq_some_getD s.pcrs i [] hip]

theorem nsm_describe_pcr_closed (s : Session) (slot : Int)
    (hclosed : s.closed = true) :
    nsm_describe_pcr s slot = (NSM_ERR_CLOSED, []) := by
  simp only [nsm_describe_pcr, hclosed, if_true]

theorem nsm_describe_pcr_oob (s : Session) (slot : Int)
    (hopen : s.closed = false) (hoob : 32 ≤ slot) :
    nsm_describe_pcr s slot = (NSM_ERR_INVALID_SLOT, []) := by
  have hrange : (slot < 0 ∨ 32 ≤ slot) := Or.inr hoob
  simp only [nsm_describe_pcr, hopen, Bool.false_eq_true, if_false, if_pos hrange]

theorem nsm_extend_pcr_ok (s : Session) (i : Nat) (data : List Nat)
    (hopen : s.closed = false) (hi : i < 32) (hip : i < s.pcrs.length)
    (hunlocked : s.pcrLocks.getD i false = false) (hdata : data ≠ []) :
    nsm_extend_pcr s (i : Int) data =
      (NSM_OK, sha256 (s.pcrs.getD i [] ++ data),
       { s with pcrs := s.pcrs.set i (sha256 (s.pcrs.getD i [] ++ data)) }) := by
  have hrange : ¬((i : Int) < 0 ∨ 32 ≤ (i : Int)) := by omega
  simp only [nsm_extend_pcr, hopen, Bool.false_eq_true, if_false,
    if_neg hrange, Int.toNat_ofNat, listGet?_eq_some_getD s.pcrs i [] hip,
    hunlocked, List.isEmpty_eq_false.mpr hdata]

theorem nsm_extend_pcr_closed (s : Session) (slot : Int) (data : List Nat)
    (hclosed : s.closed = true) :
    nsm_extend_pcr s slot data = (NSM_ERR_CLOSED, [], s) := by
  simp only [nsm_extend_pcr, hclosed, if_true]

theorem nsm_extend_pcr_oob (s : Session) (slot : Int) (data : List Nat)
    (hopen : s.closed = false) (hoob : 32 ≤ slot) :
    nsm_extend_pcr s slot data = (NSM_ERR_INVALID_SLOT, [], s) := by
  simp only [nsm_extend_pcr, hopen, Bool.false_eq_true, if_false,
    if_pos (Or.inr hoob : slot < 0 ∨ 32 ≤ slot)]

theorem nsm_extend_pcr_locked (s : Session) (i : Nat) (data : List Nat)
    (hopen : s.closed = false) (hi : i < 32) (hip : i < s.pcrs.length)
    (hlocked : s.pcrLocks.getD i false = true) :
    nsm_extend_pcr s (i : Int) data = (NSM_ERR_LOCKED, [], s) := by
  have hrange : ¬((i : Int) < 0 ∨ 32 ≤ (i : Int)) := by omega
  simp only [nsm_extend_pcr, hopen, Bool.false_eq_true, if_false,
    if_neg hrange, Int.toNat_ofNat, listGet?_eq_some_getD s.pcrs i [] hip,
    hlocked, if_true]

theorem nsm_lock_pcr_ok (s : Session) (i : Nat)
    (hopen : s.closed = false) (hi : i < 32) :
    nsm_lock_pcr s (i : Int) =
      (NSM_OK, { s with pcrLocks := s.pcrLocks.set i true }) := by
  have hrange : ¬((i : Int) < 0 ∨ 32 ≤ (i : Int)) := by omega
  simp only [nsm_lock_pcr, hopen, Bool.false_eq_true, if_false,
    if_neg hrange, Int.toNat_ofNat]

theorem nsm_lock_range_ok (s : Session) (limit : Int)
    (hopen : s.closed = false) :
    nsm_lock_range s limit =
      (NSM_OK, { s with pcrLocks := lockBelow limit 0 s.pcrLocks }) := by
  simp only [nsm_lock_range, hopen, Bool.false_eq_true, if_false]

theorem nsm_set_certificate_empty (s : Session) (slot : Int)
    (hopen : s.closed = false) (h0 : 0 ≤ slot) (h4 : slot < 4) :
    nsm_set_certificate s slot [] = (NSM_ERR_INVALID_LENGTH, s) := by
  have hrange : ¬(slot < 0 ∨ 4 ≤ slot) := by omega
  simp only [nsm_set_certificate, hopen, Bool.false_eq_true, if_false,
    if_neg hrange, List.isEmpty_nil, if_true]

theorem nsm_set_certificate_closed (s : Session) (slot : Int)
    (data : List Nat) (hclosed : s.closed = true) :
    nsm_set_certificate s slot data = (NSM_ERR_CLOSED, s) := by
  simp only [nsm_set_certificate, hclosed, if_true]

theorem nsm_session_close_open (s : Session) (hopen : s.closed = false) :
    nsm_session_close s = (NSM_OK, { s with closed := true }) := by
  simp only [nsm_session_close, hopen, Bool.false_eq_true, if_false]

theorem nsm_locked_flags_open (s : Session) (hopen : s.closed = false) :
    nsm_locked_flags s = (NSM_OK, s.pcrLocks) := by
  simp only [nsm_locked_flags, hopen, Bool.false_eq_true, if_false]

/-! ## Transport operation lemmas -/

theorem locked_flags_open (s : Session) (hopen : s.closed = false) :
    locked_flags s = .ok s.pcrLocks := by
  simp only [locked_flags, nsm_locked_flags_open s hopen, raise_error_ok]

theorem slot_locked_open (s : Session) (i : Nat) (hopen : s.closed = false)
    (hlen : i < s.pcrLocks.length) :
    slot_locked s (i : Int) = .ok (s.pcrLocks.getD i false) := by
  have hrange : ¬((i : Int) < 0 ∨ (s.pcrLocks.length : Int) ≤ (i : Int)) := by
    omega
  simp only [slot_locked, locked_flags_open s hopen, if_neg hrange,
    Int.toNat_ofNat]

theorem transport_describe_pcr_raw_ok (s : Session) (i : Nat)
    (hopen : s.closed = false) (hi : i < 32) (hip : i < s.pcrs.length)
    (hlen : i < s.pcrLocks.length) :
    transport_describe_pcr_raw s (i : Int) =
      .ok (s.pcrs.getD i [], s.pcrLocks.getD i false) := by
  simp only [transport_describe_pcr_raw, nsm_describe_pcr_ok s i hopen hi hip,
    raise_error_ok, slot_locked_open s i hopen hlen]

theorem transport_describe_pcr_raw_closed (s : Session) (slot : Int)
    (hclosed : s.closed = true) :
    transport_describe_pcr_raw s slot =
      .error (.exc .sessionClosed "NSM session is closed") := by
  simp only [transport_describe_pcr_raw, nsm_describe_pcr_closed s slot hclosed,
    raise_error_closed]

theorem transport_describe_pcr_raw_oob (s : Session) (slot : Int)
    (hopen : s.closed = false) (hoob : 32 ≤ slot) :
    transport_describe_pcr_raw s slot =
      .error (.exc .invalidPcr
        ("PCR slot " ++ toString slot ++ " is out of range")) := by
  simp only [transport_describe_pcr_raw, nsm_describe_pcr_oob s slot hopen hoob,
    raise_error_invalid_slot_pcr]

theorem transport_describe_pcr_ok (s : Session) (i : Nat)
    (hopen : s.closed = false) (hi : i < 32) (hip : i < s.pcrs.length)
    (hlen : i < s.pcrLocks.length) :
    transport_describe_pcr s (i : Int) = .ok (s.pcrs.getD i []) := by
  simp only [transport_describe_pcr,
    transport_describe_pcr_raw_ok s i hopen hi hip hlen]

theorem transport_extend_pcr_ok (s : Session) (i : Nat) (data : List Nat)
    (hopen : s.closed = false) (hi : i < 32) (hip : i < s.pcrs.length)
    (hunlocked : s.pcrLocks.getD i false = false) (hdata : data ≠ []) :
    transport_extend_pcr s (i : Int) data =
      .ok (sha256 (s.pcrs.getD i [] ++ data),
        { s with pcrs := s.pcrs.set i (sha256 (s.pcrs.getD i [] ++ data)) }) := by
  simp only [transport_extend_pcr,
    nsm_extend_pcr_ok s i data hopen hi hip hunlocked hdata, raise_error_ok]

theorem transport_extend_pcr_closed (s : Session) (slot : Int)
    (data : List Nat) (hclosed : s.closed = true) :
    transport_extend_pcr s slot data =
      .error (.exc .sessionClosed "NSM session is closed") := by
  simp only [transport_extend_pcr, nsm_extend_pcr_closed s slot data hclosed,
    raise_error_closed]

theorem transport_extend_pcr_oob (s : Session) (slot : Int) (data : List Nat)
    (hopen : s.closed = false) (hoob : 32 ≤ slot) :
    transport_extend_pcr s slot data =
      .error (.exc .invalidPcr
        ("PCR slot " ++ toString slot ++ " is out of range")) := by
  simp only [transport_extend_pcr, nsm_extend_pcr_oob s slot data hopen hoob,
    raise_error_invalid_slot_pcr]

theorem transport_extend_pcr_locked (s : Session) (i : Nat) (data : List Nat)
    (hopen : s.closed = false) (hi : i < 32) (hip : i < s.pcrs.length)
    (hlocked : s.pcrLocks.getD i false = true) :
    transport_extend_pcr s (i : Int) data =
      .error (.exc .pcrLocked
        ("PCR slot " ++ toString (i : Int) ++ " is locked")) := by
  simp only [transport_extend_pcr,
    nsm_extend_pcr_locked s i data hopen hi hip hlocked, raise_error_locked]

theorem transport_lock_pcr_ok (s : Session) (i : Nat)
    (hopen : s.closed = false) (hi : i < 32) :
    transport_lock_pcr s (i : Int) =
      .ok (true, { s with pcrLocks := s.pcrLocks.set i true }) := by
  simp only [transport_lock_pcr, nsm_lock_pcr_ok s i hopen hi, raise_error_ok]

theorem transport_lock_pcrs_ok (s : Session) (limit : Int)
    (hopen : s.closed = false) :
    transport_lock_pcrs s limit =
      .ok (true, { s with pcrLocks := lockBelow limit 0 s.pcrLocks }) := by
  simp only [transport_lock_pcrs, nsm_lock_range_ok s limit hopen,
    raise_error_ok]

theorem transport_set_certificate_empty (s : Session) (slot : Int)
    (hopen : s.closed = false) (h0 : 0 ≤ slot) (h4 : slot < 4) :
    transport_set_certificate s slot [] =
      .error (.exc .certificate "Certificate payload must not be empty") := by
  simp only [transport_set_certificate,
    nsm_set_certificate_empty s slot hopen h0 h4,
    raise_error_invalid_length_cert]

theorem transport_set_certificate_closed (s : Session) (slot : Int)
    (data : List Nat) (hclosed : s.closed = true) :
    transport_set_certificate s slot data =
      .error (.exc .sessionClosed "NSM session is closed") := by
  simp only [transport_set_certificate,
    nsm_set_certificate_closed s slot data hclosed, raise_error_closed]

theorem transport_close_open (s : Session) (hopen : s.closed = false) :
    transport_close s = .ok { s with closed := true } := by
  simp only [transport_close, nsm_session_close_open s hopen]
  simp

/-! ## Client operation lemmas -/

theorem client_describe_pcr_ok (s : Session) (i : Nat)
    (hopen : s.closed = false) (hi : i < 32) (hip : i < s.pcrs.length)
    (hlen : i < s.pcrLocks.length) :
    client_describe_pcr s (i : Int) =
      .ok { slot := (i : Int), digest := s.pcrs.getD i [],
            locked := s.pcrLocks.getD i false } := by
  simp only [client_describe_pcr, if_neg (by omega : ¬((i : Int) < 0)),
    transport_describe_pcr_raw_ok s i hopen hi hip hlen]

theorem client_describe_pcr_closed (s : Session) (slot : Int)
    (hclosed : s.closed = true) (hslot : 0 ≤ slot) :
    client_describe_pcr s slot =
      .error (.exc .sessionClosed "NSM session is closed") := by
  simp only [client_describe_pcr, if_neg (by omega : ¬(slot < 0)),
    transport_describe_pcr_raw_closed s slot hclosed]

theorem client_describe_pcr_neg (s : Session) (slot : Int)
    (hneg : slot < 0) :
    client_describe_pcr s slot =
      .error (.exc .generic "PCR slot must be non-negative") := by
  simp only [client_describe_pcr, if_pos hneg]

theorem client_describe_pcr_oob (s : Session) (slot : Int)
    (hopen : s.closed = false) (hoob : 32 ≤ slot) :
    client_describe_pcr s slot =
      .error (.exc .invalidPcr
        ("PCR slot " ++ toString slot ++ " is out of range")) := by
  simp only [client_describe_pcr, if_neg (by omega : ¬(slot < 0)),
    transport_describe_pcr_raw_oob s slot hopen hoob]

theorem client_extend_pcr_ok (s : Session) (i : Nat) (data : List Nat)
    (hopen : s.closed = false) (hi : i < 32) (hip : i < s.pcrs.length)
    (hlen : i < s.pcrLocks.length)
    (hunlocked : s.pcrLocks.getD i false = false) (hdata : data ≠ []) :
    client_extend_pcr s (i : Int) data =
      .ok ({ slot := (i : Int),
             digest := sha256 (s.pcrs.getD i [] ++ data), locked := false },
           { s with pcrs := s.pcrs.set i (sha256 (s.pcrs.getD i [] ++ data)) }) := by
  have hraw : transport_describe_pcr_raw
      { s with pcrs := s.pcrs.set i (sha256 (s.pcrs.getD i [] ++ data)) }
      (i : Int) =
      .ok ((s.pcrs.set i (sha256 (s.pcrs.getD i [] ++ data))).getD i [],
        s.pcrLocks.getD i false) :=
    transport_describe_pcr_raw_ok _ i hopen hi (by simpa using hip) hlen
  simp only [client_extend_pcr, if_neg (by omega : ¬((i : Int) < 0)),
    List.isEmpty_eq_false.mpr hdata, Bool.false_eq_true, if_false,
    transport_extend_pcr_ok s i data hopen hi hip hunlocked hdata,
    hraw, hunlocked]

theorem client_extend_pcr_closed (s : Session) (slot : Int) (data : List Nat)
    (hclosed : s.closed = true) (hslot : 0 ≤ slot) (hdata : data ≠ []) :
    client_extend_pcr s slot data =
      .error (.exc .sessionClosed "NSM session is closed") := by
  simp only [client_extend_pcr, if_neg (by omega : ¬(slot < 0)),
    List.isEmpty_eq_false.mpr hdata, Bool.false_eq_true, if_false,
    transport_extend_pcr_closed s slot data hclosed]

theorem client_extend_pcr_neg (s : Session) (slot : Int) (data : List Nat)
    (hneg : slot < 0) :
    client_extend_pcr s slot data =
      .error (.exc .generic "PCR slot must be non-negative") := by
  simp only [client_extend_pcr, if_pos hneg]

theorem client_extend_pcr_oob (s : Session) (slot : Int) (data : List Nat)
    (hopen : s.closed = false) (hoob : 32 ≤ slot) (hdata : data ≠ []) :
    client_extend_pcr s slot data =
      .error (.exc .invalidPcr
        ("PCR slot " ++ toString slot ++ " is out of range")) := by
  simp only [client_extend_pcr, if_neg (by omega : ¬(slot < 0)),
    List.isEmpty_eq_false.mpr hdata, Bool.false_eq_true, if_false,
    transport_extend_pcr_oob s slot data hopen hoob]

theorem client_extend_pcr_locked (s : Session) (i : Nat) (data : List Nat)
    (hopen : s.closed = false) (hi : i < 32) (hip : i < s.pcrs.length)
    (hlocked : s.pcrLocks.getD i false = true) (hdata : data ≠ []) :
    client_extend_pcr s (i : Int) data =
      .error (.exc .pcrLocked
        ("PCR slot " ++ toString (i : Int) ++ " is locked")) := by
  simp only [client_extend_pcr, if_neg (by omega : ¬((i : Int) < 0)),
    List.isEmpty_eq_false.mpr hdata, Bool.false_eq_true, if_false,
    transport_extend_pcr_locked s i data hopen hi hip hlocked]

theorem client_set_certificate_closed (s : Session) (slot : Int)
    (cert : List Nat) (hclosed : s.closed = true) (hslot : 0 ≤ slot)
    (hcert : cert ≠ []) :
    client_set_certificate s slot cert =
      .error (.exc .sessionClosed "NSM session is closed") := by
  simp only [client_set_certificate, if_neg (by omega : ¬(slot < 0)),
    List.isEmpty_eq_false.mpr hcert, Bool.false_eq_true, if_false,
    transport_set_certificate_closed s slot cert hclosed]

theorem client_set_certificate_empty (s : Session) (slot : Int)
    (hslot : 0 ≤ slot) :
    client_set_certificate s slot [] =
      .error (.exc .generic "certificate payload must not be empty") := by
  simp only [client_set_certificate, if_neg (by omega : ¬(slot < 0)),
    List.isEmpty_nil, if_true]

theorem client_lock_pcr_ok (s : Session) (i : Nat)
    (hopen : s.closed = false) (hi : i < 32) :
    client_lock_pcr s (i : Int) =
      .ok (true, { s with pcrLocks := s.pcrLocks.set i true }) := by
  simp only [client_lock_pcr, if_neg (by omega : ¬((i : Int) < 0)),
    transport_lock_pcr_ok s i hopen hi]

theorem client_lock_pcrs_ok (s : Session) (k : Int)
    (hopen : s.closed = false) (hk : 0 ≤ k) :
    client_lock_pcrs s k =
      .ok (true, { s with pcrLocks := lockBelow k 0 s.pcrLocks }) := by
  simp only [client_lock_pcrs, if_neg (by omega : ¬(k < 0)),
    transport_lock_pcrs_ok s k hopen]

theorem client_get_attestation_closed (s : Session)
    (ud pk n : Option (List Nat)) (hclosed : s.closed = true) :
    client_get_attestation s ud pk n =
      .error (.exc .sessionClosed "NSM session is closed") := by
  simp only [client_get_attestation, transport_get_attestation,
    nsm_session_is_closed, hclosed, if_true]

theorem client_close_open (s : Session) (hopen : s.closed = false) :
    client_close s = .ok { s with closed := true } := by
  simp only [client_close, hopen, Bool.false_eq_true, not_false_iff,
    if_true, transport_close_open s hopen]

theorem client_close_closed (s : Session) (hclosed : s.closed = true) :
    client_close s = .ok s := by
  simp only [client_close, hclosed]
  simp

/-! ## Attestation building lemmas -/

theorem gather_pcrs_loop_spec (s : Session) (hopen : s.closed = false)
    (hlen : s.pcrLocks.length = 32) :
    ∀ (l pre : List (List Nat)), s.pcrs = pre ++ l →
      pre.length + l.length ≤ 32 →
      gather_pcrs_loop s (List.range' pre.length l.length) = .ok l := by
  intro l
  induction l with
  | nil => intro pre _ _; simp [gather_pcrs_loop]
  | cons d rest ih =>
    intro pre hs hle
    simp only [List.length_cons] at hle
    have hi : pre.length < 32 := by omega
    have hip : pre.length < s.pcrs.length := by
      rw [hs, List.length_append, List.length_cons]; omega
    have hd : s.pcrs.getD pre.length [] = d := by
      rw [hs]; exact getD_append_cons pre d rest []
    have hdesc : transport_describe_pcr s (pre.length : Int) = .ok d := by
      rw [transport_describe_pcr_ok s pre.length hopen hi hip (by omega), hd]
    have hrec := ih (pre ++ [d]) (by simpa using hs) (by simp; omega)
    simp only [List.length_append, List.length_cons, List.length_nil,
      Nat.add_zero, Nat.zero_add] at hrec
    simp only [List.length_cons]
    rw [List.range'_succ]
    simp only [gather_pcrs_loop, hdesc, hrec]

theorem gather_pcrs_wf (s : Session) (hwf : s.wf) (hopen : s.closed = false) :
    gather_pcrs s = .ok s.pcrs := by
  obtain ⟨hp, hl, -⟩ := hwf
  have hloop := gather_pcrs_loop_spec s hopen hl s.pcrs [] rfl
    (by simp [hp, PCR_SLOTS])
  simp only [List.length_nil, hp] at hloop
  simpa [gather_pcrs, PCR_SLOTS, List.range_eq_range'] using hloop

theorem first_certificate_loop_spec (s : Session) (hopen : s.closed = false) :
    ∀ (l pre : List (Option (List Nat))), s.certs = pre ++ l →
      pre.length + l.length ≤ 4 →
      first_certificate_loop s (List.range' pre.length l.length) =
        .ok (firstPresentSpec l) := by
  intro l
  induction l with
  | nil => intro pre _ _; simp [first_certificate_loop, firstPresentSpec]
  | cons c rest ih =>
    intro pre hs hle
    simp only [List.length_cons] at hle
    have hi : pre.length < 4 := by omega
    have hrange : ¬((pre.length : Int) < 0 ∨ 4 ≤ (pre.length : Int)) := by omega
    have hc : s.certs.getD pre.length none = c := by
      rw [hs]; exact getD_append_cons pre c rest none
    simp only [List.length_cons]
    rw [List.range'_succ]
    cases c with
    | some p =>
      have hdesc : nsm_describe_certificate s (pre.length : Int) =
          (NSM_OK, p) := by
        simp only [nsm_describe_certificate, hopen, Bool.false_eq_true,
          if_false, if_neg hrange, Int.toNat_ofNat, hc]
      simp [first_certificate_loop, hdesc, firstPresentSpec]
    | none =>
      have hdesc : nsm_describe_certificate s (pre.length : Int) =
          (NSM_ERR_CERT_MISSING, []) := by
        simp only [nsm_describe_certificate, hopen, Bool.false_eq_true,
          if_false, if_neg hrange, Int.toNat_ofNat, hc]
      have hrec := ih (pre ++ [none]) (by simpa using hs) (by simp; omega)
      simp only [List.length_append, List.length_cons, List.length_nil,
        Nat.add_zero] at hrec
      simp only [first_certificate_loop, hdesc, firstPresentSpec]
      simpa [NSM_ERR_CERT_MISSING, NSM_OK] using hrec

theorem first_certificate_wf (s : Session) (hwf : s.wf)
    (hopen : s.closed = false) :
    first_certificate s = .ok (firstPresentSpec s.certs) := by
  obtain ⟨-, -, hc⟩ := hwf
  have hloop := first_certificate_loop_spec s hopen s.certs [] rfl
    (by simp [hc, CERTIFICATE_SLOTS])
  simp only [List.length_nil, hc] at hloop
  simpa [first_certificate, CERTIFICATE_SLOTS, List.range_eq_range']
    using hloop

theorem attestation_try_block_wf (s : Session)
    (ud pk n : Option (List Nat)) (hwf : s.wf) (hopen : s.closed = false) :
    attestation_try_block s ud pk n =
      .ok (s.pcrs, attestation_digest s.pcrs ud pk n,
        lockedIndicesFrom 0 s.pcrLocks) := by
  simp only [attestation_try_block, gather_pcrs_wf s hwf hopen,
    locked_flags_open s hopen]

theorem transport_get_attestation_wf (s : Session)
    (ud pk n : Option (List Nat)) (hwf : s.wf) (hopen : s.closed = false) :
    transport_get_attestation s ud pk n =
      .ok { module_id := s.moduleId,
            digest := attestation_digest s.pcrs ud pk n, pcrs := s.pcrs,
            locked_pcrs := lockedIndicesFrom 0 s.pcrLocks,
            certificate := firstPresentSpec s.certs, cabundle := none,
            user_data := ud, public_key := pk, nonce := n } := by
  simp only [transport_get_attestation, nsm_session_is_closed, hopen,
    Bool.false_eq_true, if_false, attestation_try_block_wf s ud pk n hwf hopen,
    first_certificate_wf s hwf hopen, nsm_module_id]

theorem truthyBytes_getD (o : Option (List Nat)) :
    truthyBytes o = o.getD [] := by
  cases o with
  | none => rfl
  | some d => cases d <;> rfl

/-! ## Frame lemmas: how each operation relates the output session to the
input session -/

theorem nsm_extend_pcr_pcrLocks (s : Session) (slot : Int) (data : List Nat) :
    (nsm_extend_pcr s slot data).2.2.pcrLocks = s.pcrLocks := by
  unfold nsm_extend_pcr
  repeat' split
  all_goals rfl

theorem nsm_lock_pcr_locks_mono (s : Session) (slot : Int) (i : Nat)
    (h : s.pcrLocks.getD i false = true) :
    (nsm_lock_pcr s slot).2.pcrLocks.getD i false = true := by
  unfold nsm_lock_pcr
  repeat' split
  · exact h
  · exact h
  · exact listGetD_set_true s.pcrLocks slot.toNat i h

theorem nsm_lock_range_locks_mono (s : Session) (limit : Int) (i : Nat)
    (h : s.pcrLocks.getD i false = true) :
    (nsm_lock_range s limit).2.pcrLocks.getD i false = true := by
  unfold nsm_lock_range
  split
  · exact h
  · exact lockBelow_getD_mono limit s.pcrLocks 0 i h

theorem nsm_set_certificate_pcrLocks (s : Session) (slot : Int)
    (data : List Nat) :
    (nsm_set_certificate s slot data).2.pcrLocks = s.pcrLocks := by
  unfold nsm_set_certificate
  repeat' split
  all_goals rfl

theorem nsm_remove_certificate_pcrLocks (s : Session) (slot : Int) :
    (nsm_remove_certificate s slot).2.pcrLocks = s.pcrLocks := by
  unfold nsm_remove_certificate
  repeat' split
  all_goals rfl

theorem transport_extend_pcr_ok_state (s : Session) (slot : Int)
    (data : List Nat) (d : List Nat) (s₂ : Session)
    (h : transport_extend_pcr s slot data = .ok (d, s₂)) :
    s₂ = (nsm_extend_pcr s slot data).2.2 := by
  rcases hns : nsm_extend_pcr s slot data with ⟨code, d₀, s₀⟩
  unfold transport_extend_pcr at h
  rw [hns] at h
  dsimp only [] at h
  cases hre : raise_error code "pcr" (some slot) none with
  | some e => rw [hre] at h; simp at h
  | none =>
    rw [hre] at h
    simp only [Except.ok.injEq, Prod.mk.injEq] at h
    simp [h.2.symm]

theorem client_extend_pcr_ok_state (s : Session) (slot : Int)
    (data : List Nat) (v : PcrValue) (s' : Session)
    (h : client_extend_pcr s slot data = .ok (v, s')) :
    s' = (nsm_extend_pcr s slot data).2.2 := by
  unfold client_extend_pcr at h
  split at h
  · simp at h
  · split at h
    · simp at h
    · cases htr : transport_extend_pcr s slot data with
      | error e => rw [htr] at h; simp at h
      | ok p =>
        obtain ⟨d, s₂⟩ := p
        rw [htr] at h
        dsimp only [] at h
        cases hdr : transport_describe_pcr_raw s₂ slot with
        | error e => rw [hdr] at h; simp at h
        | ok q =>
          obtain ⟨d₂, lk⟩ := q
          rw [hdr] at h
          simp only [Except.ok.injEq, Prod.mk.injEq] at h
          rw [← h.2]
          exact transport_extend_pcr_ok_state s slot data d s₂ htr

theorem client_lock_pcr_ok_state (s : Session) (slot : Int) (b : Bool)
    (s' : Session) (h : client_lock_pcr s slot = .ok (b, s')) :
    s' = (nsm_lock_pcr s slot).2 := by
  unfold client_lock_pcr transport_lock_pcr at h
  repeat' split at h
  all_goals simp_all

theorem client_lock_pcrs_ok_state (s : Session) (r : Int) (b : Bool)
    (s' : Session) (h : client_lock_pcrs s r = .ok (b, s')) :
    s' = (nsm_lock_range s r).2 := by
  unfold client_lock_pcrs transport_lock_pcrs at h
  repeat' split at h
  all_goals simp_all

theorem client_set_certificate_ok_state (s : Session) (slot : Int)
    (cert : List Nat) (s' : Session)
    (h : client_set_certificate s slot cert = .ok s') :
    s' = (nsm_set_certificate s slot cert).2 := by
  unfold client_set_certificate transport_set_certificate at h
  repeat' split at h
  all_goals simp_all

theorem client_remove_certificate_ok_state (s : Session) (slot : Int)
    (s' : Session) (h : client_remove_certificate s slot = .ok s') :
    s' = (nsm_remove_certificate s slot).2 := by
  unfold client_remove_certificate transport_remove_certificate at h
  repeat' split at h
  all_goals simp_all

theorem client_close_ok_locks (s : Session) (s' : Session)
    (h : client_close s = .ok s') : s'.pcrLocks = s.pcrLocks := by
  unfold client_close at h
  split at h
  · rename_i hopen
    have hfalse : s.closed = false := by simpa using hopen
    rw [transport_close_open s hfalse] at h
    simp only [Except.ok.injEq] at h
    rw [← h]
  · simp only [Except.ok.injEq] at h
    rw [← h]

theorem applyClientOp_locks_mono (s : Session) (op : ClientOp) (i : Nat)
    (h : s.pcrLocks.getD i false = true) :
    (applyClientOp s op).pcrLocks.getD i false = true := by
  cases op with
  | describePcr slot => exact h
  | describeCertificate slot => exact h
  | getAttestation ud pk n => exact h
  | extendPcr slot data =>
    simp only [applyClientOp]
    cases hres : client_extend_pcr s slot data with
    | error e => exact h
    | ok p =>
      obtain ⟨v, s'⟩ := p
      dsimp only []
      rw [client_extend_pcr_ok_state s slot data v s' hres,
        nsm_extend_pcr_pcrLocks]
      exact h
  | lockPcr slot =>
    simp only [applyClientOp]
    cases hres : client_lock_pcr s slot with
    | error e => exact h
    | ok p =>
      obtain ⟨b, s'⟩ := p
      dsimp only []
      rw [client_lock_pcr_ok_state s slot b s' hres]
      exact nsm_lock_pcr_locks_mono s slot i h
  | lockPcrs r =>
    simp only [applyClientOp]
    cases hres : client_lock_pcrs s r with
    | error e => exact h
    | ok p =>
      obtain ⟨b, s'⟩ := p
      dsimp only []
      rw [client_lock_pcrs_ok_state s r b s' hres]
      exact nsm_lock_range_locks_mono s r i h
  | setCertificate slot c =>
    simp only [applyClientOp]
    cases hres : client_set_certificate s slot c with
    | error e => exact h
    | ok s' =>
      dsimp only []
      rw [client_set_certificate_ok_state s slot c s' hres,
        nsm_set_certificate_pcrLocks]
      exact h
  | removeCertificate slot =>
    simp only [applyClientOp]
    cases hres : client_remove_certificate s slot with
    | error e => exact h
    | ok s' =>
      dsimp only []
      rw [client_remove_certificate_ok_state s slot s' hres,
        nsm_remove_certificate_pcrLocks]
      exact h
  | close =>
    simp only [applyClientOp]
    cases hres : client_close s with
    | error e => exact h
    | ok s' =>
      dsimp only []
      rw [client_close_ok_locks s s' hres]
      exact h

theorem nsm_set_certificate_certs (s : Session) (slot : Int)
    (data : List Nat) :
    (nsm_set_certificate s slot data).2.certs = s.certs ∨
    ((nsm_set_certificate s slot data).2.certs =
        s.certs.set slot.toNat (some data) ∧ data ≠ []) := by
  unfold nsm_set_certificate
  repeat' split
  · exact Or.inl rfl
  · exact Or.inl rfl
  · exact Or.inl rfl
  · rename_i hne
    exact Or.inr ⟨rfl, by simpa using hne⟩

theorem set_certificate_nonempty_invariant (s : Session) (slot : Int)
    (cert : List Nat) (s' : Session)
    (hinv : ∀ p : List Nat, some p ∈ s.certs → p ≠ [])
    (h : client_set_certificate s slot cert = .ok s') :
    ∀ p : List Nat, some p ∈ s'.certs → p ≠ [] := by
  have hst := client_set_certificate_ok_state s slot cert s' h
  intro p hp
  rw [hst] at hp
  rcases nsm_set_certificate_certs s slot cert with hc | ⟨hc, hne⟩
  · rw [hc] at hp; exact hinv p hp
  · rw [hc] at hp
    rcases List.mem_or_eq_of_mem_set hp with h1 | h2
    · exact hinv p h1
    · injection h2 with h3
      rw [h3]
      exact hne

theorem raise_error_eq_none (code : Nat) (context : String)
    (slot : Option Int) (details : Option String)
    (h : raise_error code context slot details = none) : code = NSM_OK := by
  by_contra hc
  unfold raise_error at h
  rw [if_neg hc] at h
  repeat' split at h
  all_goals simp_all

theorem nsm_lock_pcr_code_ok (t : Session) (slot : Int) (t₂ : Session)
    (h : nsm_lock_pcr t slot = (NSM_OK, t₂)) :
    t₂ = { t with pcrLocks := t.pcrLocks.set slot.toNat true } := by
  unfold nsm_lock_pcr at h
  repeat' split at h
  all_goals simp_all [NSM_OK, NSM_ERR_CLOSED, NSM_ERR_INVALID_SLOT]

theorem client_lock_pcr_sets_flag (t : Session) (i : Nat) (b : Bool)
    (t' : Session) (h : client_lock_pcr t (i : Int) = .ok (b, t'))
    (hlen : i < t.pcrLocks.length) : t'.pcrLocks.getD i false = true := by
  unfold client_lock_pcr transport_lock_pcr at h
  split at h
  · simp at h
  · rcases hns : nsm_lock_pcr t (i : Int) with ⟨code, t₂⟩
    rw [hns] at h
    dsimp only [] at h
    cases hre : raise_error code "pcr" (some (i : Int)) none with
    | some e => rw [hre] at h; simp at h
    | none =>
      rw [hre] at h
      simp only [Except.ok.injEq, Prod.mk.injEq] at h
      have hcode := raise_error_eq_none code "pcr" (some (i : Int)) none hre
      rw [hcode] at hns
      have ht₂ := nsm_lock_pcr_code_ok t (i : Int) t₂ hns
      rw [← h.2, ht₂]
      simp only [Int.toNat_ofNat]
      exact listGetD_set_self t.pcrLocks i true false hlen

theorem foldl_applyClientOp_locks_mono :
    ∀ (ops : List ClientOp) (t : Session) (i : Nat),
      t.pcrLocks.getD i false = true →
      (ops.foldl applyClientOp t).pcrLocks.getD i false = true
  | [], _, _, h => h
  | op :: rest, t, i, h =>
    foldl_applyClientOp_locks_mono rest (applyClientOp t op) i
      (applyClientOp_locks_mono t op i h)

/-! ## Sample sessions used by concrete instantiations -/

/-- A fresh session with PCR slot 0 locked (the state after
`lock_pcr(0)` on a new session). -/
def lockedSession0 : Session :=
  { nsm_session_new with pcrLocks := nsm_session_new.pcrLocks.set 0 true }

/-- A session whose PCR bank lost its entries (standing for §5's
concurrently invalidated slot): reading any PCR fails. -/
def truncatedSession : Session := { nsm_session_new with pcrs := [] }

/-- A fresh session with certificates stored in slots 1 and 2. -/
def certSession : Session :=
  { nsm_session_new with certs := [none, some [7], some [8, 8], none] }

/-! ## Claim theorems -/

/-- C10: for every fixed sequence of PCR digests and every byte string
`b`, the attestation digest computed with `user_data = b` equals the one
computed with `public_key = b` and the one computed with `nonce = b` (the
other two optional inputs absent): the optional inputs are concatenated
into the hash input with no tag or length prefix, so which optional field
supplied the bytes is not reflected in the digest. -/
theorem optional_inputs_untagged (pcr_values : List (List Nat))
    (b : List Nat) :
    attestation_digest pcr_values (some b) none none =
      attestation_digest pcr_values none (some b) none ∧
    attestation_digest pcr_values none (some b) none =
      attestation_digest pcr_values none none (some b) := by
  unfold attestation_digest
  simp [truthyBytes_getD, List.append_assoc]

/-- C1: for every open well-formed session and all optional inputs, the
digest of the document built by `get_attestation` equals SHA-256 of the
concatenation of the 32 PCR digests in ascending slot order, followed by
`user_data`, then `public_key`, then `nonce`, where an absent optional
input contributes no bytes; in particular the digest built with
`user_data = None` equals the digest built with `user_data = b""` on the
same state. -/
theorem attestation_digest_composition (s : Session)
    (ud pk n : Option (List Nat)) (hwf : s.wf) (hopen : s.closed = false) :
    (∃ p, transport_get_attestation s ud pk n = .ok p ∧
        p.digest = specAttestationDigest s.pcrs ud pk n) ∧
    (∃ p₁ p₂, transport_get_attestation s none pk n = .ok p₁ ∧
        transport_get_attestation s (some []) pk n = .ok p₂ ∧
        p₁.digest = p₂.digest) := by
  constructor
  · refine ⟨_, transport_get_attestation_wf s ud pk n hwf hopen, ?_⟩
    simp [attestation_digest, specAttestationDigest, truthyBytes_getD]
  · refine ⟨_, _, transport_get_attestation_wf s none pk n hwf hopen,
      transport_get_attestation_wf s (some []) pk n hwf hopen, ?_⟩
    rfl

theorem attestation_digest_composition_witness :
    (nsm_session_new.wf ∧ nsm_session_new.closed = false) ∧
    ((∃ p, transport_get_attestation nsm_session_new (some [1]) none none =
          .ok p ∧
        p.digest =
          specAttestationDigest nsm_session_new.pcrs (some [1]) none none) ∧
     (∃ p₁ p₂, transport_get_attestation nsm_session_new none none none =
          .ok p₁ ∧
        transport_get_attestation nsm_session_new (some []) none none =
          .ok p₂ ∧
        p₁.digest = p₂.digest)) :=
  ⟨⟨by decide, rfl⟩,
   attestation_digest_composition nsm_session_new (some [1]) none none
     (by decide) rfl⟩

/-- C2: for every open well-formed session, every unlocked slot `i` in
`[0, 32)` and every non-empty `data`, `extend_pcr(i, data)` replaces the
slot's digest with `SHA256(old_digest || data)` and returns that new
digest (with the slot still unlocked); instantiated on a fresh session at
slot 0 with `b"hello"` this yields `SHA256(32 zero bytes || b"hello")`. -/
theorem extend_pcr_hash_chain (s : Session) (i : Nat) (data : List Nat)
    (hwf : s.wf) (hopen : s.closed = false) (hi : i < 32)
    (hunlocked : s.pcrLocks.getD i false = false) (hdata : data ≠ []) :
    client_extend_pcr s (i : Int) data =
      .ok ({ slot := (i : Int),
             digest := sha256 (s.pcrs.getD i [] ++ data), locked := false },
           { s with
               pcrs := s.pcrs.set i (sha256 (s.pcrs.getD i [] ++ data)) }) := by
  obtain ⟨hp, hl, -⟩ := hwf
  have hp' : s.pcrs.length = 32 := hp
  have hl' : s.pcrLocks.length = 32 := hl
  exact client_extend_pcr_ok s i data hopen hi (by omega) (by omega)
    hunlocked hdata

theorem extend_pcr_hash_chain_witness :
    (nsm_session_new.wf ∧ nsm_session_new.closed = false ∧ 0 < 32 ∧
      nsm_session_new.pcrLocks.getD 0 false = false ∧
      ([104, 101, 108, 108, 111] : List Nat) ≠ []) ∧
    client_extend_pcr nsm_session_new ((0 : Nat) : Int)
        [104, 101, 108, 108, 111] =
      .ok ({ slot := ((0 : Nat) : Int),
             digest := sha256 (List.replicate 32 0 ++
               [104, 101, 108, 108, 111]),
             locked := false },
           { nsm_session_new with
               pcrs := nsm_session_new.pcrs.set 0
                 (sha256 (List.replicate 32 0 ++
                   [104, 101, 108, 108, 111])) }) :=
  ⟨⟨by decide, rfl, by decide, by decide, by decide⟩,
   extend_pcr_hash_chain nsm_session_new 0 [104, 101, 108, 108, 111]
     (by decide) rfl (by decide) (by decide) (by decide)⟩

/-- C3: once `lock_pcr(i)` succeeds the slot's flag is set; no client
operation (nor any sequence of them) ever resets a set lock flag; and
while the session is open, a locked slot makes `extend_pcr` fail with
`PcrLocked` (leaving the state unchanged) and `describe_pcr` report
`locked = true`. -/
theorem pcr_lock_irreversible (s t : Session) (i : Nat) (data : List Nat)
    (b : Bool) (t' : Session) (ops : List ClientOp)
    (hwf : s.wf) (hi : i < 32) (hdata : data ≠ []) :
    (client_lock_pcr t (i : Int) = .ok (b, t') → i < t.pcrLocks.length →
       t'.pcrLocks.getD i false = true) ∧
    (t.pcrLocks.getD i false = true →
       (ops.foldl applyClientOp t).pcrLocks.getD i false = true) ∧
    (s.closed = false → s.pcrLocks.getD i false = true →
       client_extend_pcr s (i : Int) data =
         .error (.exc .pcrLocked
           ("PCR slot " ++ toString (i : Int) ++ " is locked")) ∧
       applyClientOp s (.extendPcr (i : Int) data) = s ∧
       client_describe_pcr s (i : Int) =
         .ok { slot := (i : Int), digest := s.pcrs.getD i [],
               locked := true }) := by
  obtain ⟨hp, hl, -⟩ := hwf
  have hp' : s.pcrs.length = 32 := hp
  have hl' : s.pcrLocks.length = 32 := hl
  refine ⟨?_, ?_, ?_⟩
  · intro h hlen
    exact client_lock_pcr_sets_flag t i b t' h hlen
  · intro h
    exact foldl_applyClientOp_locks_mono ops t i h
  · intro hopen hlocked
    have hext := client_extend_pcr_locked s i data hopen hi (by omega)
      hlocked hdata
    refine ⟨hext, ?_, ?_⟩
    · simp [applyClientOp, hext]
    · have hdesc := client_describe_pcr_ok s i hopen hi (by omega) (by omega)
      rw [hlocked] at hdesc
      exact hdesc

theorem pcr_lock_irreversible_witness :
    (lockedSession0.wf ∧ 0 < 32 ∧ ([1] : List Nat) ≠ []) ∧
    ((client_lock_pcr nsm_session_new ((0 : Nat) : Int) =
          .ok (true, lockedSession0) →
        0 < nsm_session_new.pcrLocks.length →
        lockedSession0.pcrLocks.getD 0 false = true) ∧
     (nsm_session_new.pcrLocks.getD 0 false = true →
        ([ClientOp.close].foldl applyClientOp nsm_session_new).pcrLocks.getD
            0 false = true) ∧
     (lockedSession0.closed = false →
        lockedSession0.pcrLocks.getD 0 false = true →
        client_extend_pcr lockedSession0 ((0 : Nat) : Int) [1] =
          .error (.exc .pcrLocked
            ("PCR slot " ++ toString ((0 : Nat) : Int) ++ " is locked")) ∧
        applyClientOp lockedSession0 (.extendPcr ((0 : Nat) : Int) [1]) =
          lockedSession0 ∧
        client_describe_pcr lockedSession0 ((0 : Nat) : Int) =
          .ok { slot := ((0 : Nat) : Int),
                digest := lockedSession0.pcrs.getD 0 [],
                locked := true })) :=
  ⟨⟨by decide, by decide, by decide⟩,
   pcr_lock_irreversible lockedSession0 nsm_session_new 0 [1] true
     lockedSession0 [ClientOp.close] (by decide) (by decide) (by decide)⟩

/-- C4: after `close()` on an open session, `extend_pcr`, `describe_pcr`,
`set_certificate` and `get_attestation` all fail with `SessionClosed` and
mutate nothing, and a second `close()` succeeds without raising. -/
theorem session_close_rejects_operations (s : Session) (slot : Int)
    (data cert : List Nat) (ud pk n : Option (List Nat))
    (hopen : s.closed = false) (hslot : 0 ≤ slot) (hdata : data ≠ [])
    (hcert : cert ≠ []) :
    ∃ s' : Session, client_close s = .ok s' ∧ s'.closed = true ∧
      client_extend_pcr s' slot data =
        .error (.exc .sessionClosed "NSM session is closed") ∧
      client_describe_pcr s' slot =
        .error (.exc .sessionClosed "NSM session is closed") ∧
      client_set_certificate s' slot cert =
        .error (.exc .sessionClosed "NSM session is closed") ∧
      client_get_attestation s' ud pk n =
        .error (.exc .sessionClosed "NSM session is closed") ∧
      applyClientOp s' (.extendPcr slot data) = s' ∧
      applyClientOp s' (.setCertificate slot cert) = s' ∧
      client_close s' = .ok s' := by
  refine ⟨{ s with closed := true }, client_close_open s hopen, rfl,
    ?_, ?_, ?_, ?_, ?_, ?_, ?_⟩
  · exact client_extend_pcr_closed _ slot data rfl hslot hdata
  · exact client_describe_pcr_closed _ slot rfl hslot
  · exact client_set_certificate_closed _ slot cert rfl hslot hcert
  · exact client_get_attestation_closed _ ud pk n rfl
  · simp [applyClientOp,
      client_extend_pcr_closed { s with closed := true } slot data rfl
        hslot hdata]
  · simp [applyClientOp,
      client_set_certificate_closed { s with closed := true } slot cert rfl
        hslot hcert]
  · exact client_close_closed _ rfl

theorem session_close_rejects_operations_witness :
    (nsm_session_new.closed = false ∧ (0 : Int) ≤ 0 ∧
      ([1] : List Nat) ≠ [] ∧ ([2] : List Nat) ≠ []) ∧
    (∃ s' : Session, client_close nsm_session_new = .ok s' ∧
      s'.closed = true ∧
      client_extend_pcr s' 0 [1] =
        .error (.exc .sessionClosed "NSM session is closed") ∧
      client_describe_pcr s' 0 =
        .error (.exc .sessionClosed "NSM session is closed") ∧
      client_set_certificate s' 0 [2] =
        .error (.exc .sessionClosed "NSM session is closed") ∧
      client_get_attestation s' none none none =
        .error (.exc .sessionClosed "NSM session is closed") ∧
      applyClientOp s' (.extendPcr 0 [1]) = s' ∧
      applyClientOp s' (.setCertificate 0 [2]) = s' ∧
      client_close s' = .ok s') :=
  ⟨⟨rfl, by decide, by decide, by decide⟩,
   session_close_rejects_operations nsm_session_new 0 [1] [2] none none none
     rfl (by decide) (by decide) (by decide)⟩

/-- C5: on an open well-formed session, `lock_pcrs(k)` succeeds for every
non-negative `k` (which may exceed 32, locking all slots; `k = 0` changes
nothing): afterwards every slot below `min(k, 32)` is locked, while every
slot at or above `k` keeps its previous lock flag, and no PCR digest
changes. -/
theorem lock_pcrs_prefix (s : Session) (k : Int)
    (hwf : s.wf) (hopen : s.closed = false) (hk : 0 ≤ k) :
    ∃ s' : Session, client_lock_pcrs s k = .ok (true, s') ∧
      (∀ i : Nat, i < 32 → (i : Int) < k →
          s'.pcrLocks.getD i false = true) ∧
      (∀ i : Nat, k ≤ (i : Int) →
          s'.pcrLocks.getD i false = s.pcrLocks.getD i false) ∧
      s'.pcrs = s.pcrs := by
  obtain ⟨hp, hl, -⟩ := hwf
  have hl' : s.pcrLocks.length = 32 := hl
  refine ⟨_, client_lock_pcrs_ok s k hopen hk, ?_, ?_, rfl⟩
  · intro i h32 hik
    rw [lockBelow_getD k s.pcrLocks 0 i (by omega),
      if_pos (show ((0 + i : Nat) : Int) < k by omega)]
  · intro i hki
    by_cases hlen : i < s.pcrLocks.length
    · rw [lockBelow_getD k s.pcrLocks 0 i hlen,
        if_neg (show ¬(((0 + i : Nat) : Int) < k) by omega)]
    · have h1 := listGetD_default (lockBelow k 0 s.pcrLocks) i false
        (by rw [lockBelow_length]; omega)
      have h2 := listGetD_default s.pcrLocks i false (by omega)
      rw [h1, h2]

theorem lock_pcrs_prefix_witness :
    (nsm_session_new.wf ∧ nsm_session_new.closed = false ∧
      (0 : Int) ≤ 40) ∧
    (∃ s' : Session, client_lock_pcrs nsm_session_new 40 = .ok (true, s') ∧
      (∀ i : Nat, i < 32 → (i : Int) < 40 →
          s'.pcrLocks.getD i false = true) ∧
      (∀ i : Nat, (40 : Int) ≤ (i : Int) →
          s'.pcrLocks.getD i false = nsm_session_new.pcrLocks.getD i false) ∧
      s'.pcrs = nsm_session_new.pcrs) :=
  ⟨⟨by decide, rfl, by decide⟩,
   lock_pcrs_prefix nsm_session_new 40 (by decide) rfl (by decide)⟩

/-- C6 counterexample: on a fresh open session, `describe_pcr(-1)` raises
the base `NsmError` ("PCR slot must be non-negative") from the client
guard, whose kind is not `NsmInvalidPcrError` — refuting the claim that
every slot outside `[0, 32)` fails with the `InvalidPcrSlot` kind. -/
theorem negative_slot_error_kind_counterexample :
    client_describe_pcr nsm_session_new (-1) =
      .error (.exc .generic "PCR slot must be non-negative") ∧
    NsmExc.kind (.exc .generic "PCR slot must be non-negative") ≠
      NsmErrKind.invalidPcr := by
  constructor
  · rfl
  · decide

/-- C6 as amended: on an open session, a negative slot makes
`describe_pcr` and `extend_pcr` fail with the base `NsmError` kind raised
by the client guard ("PCR slot must be non-negative"), while a slot `>= 32`
(with non-empty data for `extend_pcr`) makes them fail with the
`InvalidPcrSlot` kind (`NsmInvalidPcrError`); in all cases every PCR is
left unchanged. -/
theorem invalid_slot_errors_amended (s : Session) (slot : Int)
    (data : List Nat) (hopen : s.closed = false) :
    (slot < 0 →
       client_describe_pcr s slot =
         .error (.exc .generic "PCR slot must be non-negative") ∧
       client_extend_pcr s slot data =
         .error (.exc .generic "PCR slot must be non-negative") ∧
       applyClientOp s (.extendPcr slot data) = s) ∧
    (32 ≤ slot → data ≠ [] →
       client_describe_pcr s slot =
         .error (.exc .invalidPcr
           ("PCR slot " ++ toString slot ++ " is out of range")) ∧
       client_extend_pcr s slot data =
         .error (.exc .invalidPcr
           ("PCR slot " ++ toString slot ++ " is out of range")) ∧
       applyClientOp s (.extendPcr slot data) = s) := by
  constructor
  · intro hneg
    refine ⟨client_describe_pcr_neg s slot hneg,
      client_extend_pcr_neg s slot data hneg, ?_⟩
    simp [applyClientOp, client_extend_pcr_neg s slot data hneg]
  · intro hoob hdata
    refine ⟨client_describe_pcr_oob s slot hopen hoob,
      client_extend_pcr_oob s slot data hopen hoob hdata, ?_⟩
    simp [applyClientOp, client_extend_pcr_oob s slot data hopen hoob hdata]

theorem invalid_slot_errors_amended_witness :
    nsm_session_new.closed = false ∧
    (((33 : Int) < 0 →
       client_describe_pcr nsm_session_new 33 =
         .error (.exc .generic "PCR slot must be non-negative") ∧
       client_extend_pcr nsm_session_new 33 [1] =
         .error (.exc .generic "PCR slot must be non-negative") ∧
       applyClientOp nsm_session_new (.extendPcr 33 [1]) =
         nsm_session_new) ∧
     ((32 : Int) ≤ 33 → ([1] : List Nat) ≠ [] →
       client_describe_pcr nsm_session_new 33 =
         .error (.exc .invalidPcr
           ("PCR slot " ++ toString (33 : Int) ++ " is out of range")) ∧
       client_extend_pcr nsm_session_new 33 [1] =
         .error (.exc .invalidPcr
           ("PCR slot " ++ toString (33 : Int) ++ " is out of range")) ∧
       applyClientOp nsm_session_new (.extendPcr 33 [1]) =
         nsm_session_new)) :=
  ⟨rfl, invalid_slot_errors_amended nsm_session_new 33 [1] rfl⟩

/-- C7: for every certificate slot in `[0, 4)` on an open session, setting
an empty payload fails with the `InvalidLength` kind — the native code is
`NSM_ERR_INVALID_LENGTH`, surfaced by `_raise_error` as
`NsmCertificateError` at the transport and pre-empted by the client guard
as a base `NsmError` — and leaves the whole session (in particular the
slot's prior content) unchanged; consequently, storing never makes a slot
hold an empty payload. -/
theorem set_certificate_empty_rejected (s : Session) (slot slot₂ : Int)
    (cert : List Nat) (t : Session)
    (hopen : s.closed = false) (h0 : 0 ≤ slot) (h4 : slot < 4) :
    (nsm_set_certificate s slot []).1 = NSM_ERR_INVALID_LENGTH ∧
    (nsm_set_certificate s slot []).2 = s ∧
    transport_set_certificate s slot [] =
      .error (.exc .certificate "Certificate payload must not be empty") ∧
    client_set_certificate s slot [] =
      .error (.exc .generic "certificate payload must not be empty") ∧
    applyClientOp s (.setCertificate slot []) = s ∧
    ((∀ p : List Nat, some p ∈ s.certs → p ≠ []) →
      client_set_certificate s slot₂ cert = .ok t →
      ∀ p : List Nat, some p ∈ t.certs → p ≠ []) := by
  refine ⟨?_, ?_, transport_set_certificate_empty s slot hopen h0 h4,
    client_set_certificate_empty s slot h0, ?_, ?_⟩
  · rw [nsm_set_certificate_empty s slot hopen h0 h4]
  · rw [nsm_set_certificate_empty s slot hopen h0 h4]
  · simp [applyClientOp, client_set_certificate_empty s slot h0]
  · intro hinv hok
    exact set_certificate_nonempty_invariant s slot₂ cert t hinv hok

/-- The session after storing `[9]` in certificate slot 3 of
`certSession`. -/
def certSession3 : Session :=
  { certSession with certs := certSession.certs.set 3 (some [9]) }

theorem set_certificate_empty_rejected_witness :
    (certSession.closed = false ∧ (0 : Int) ≤ 0 ∧ (0 : Int) < 4) ∧
    ((nsm_set_certificate certSession 0 []).1 = NSM_ERR_INVALID_LENGTH ∧
     (nsm_set_certificate certSession 0 []).2 = certSession ∧
     transport_set_certificate certSession 0 [] =
       .error (.exc .certificate "Certificate payload must not be empty") ∧
     client_set_certificate certSession 0 [] =
       .error (.exc .generic "certificate payload must not be empty") ∧
     applyClientOp certSession (.setCertificate 0 []) = certSession ∧
     ((∀ p : List Nat, some p ∈ certSession.certs → p ≠ []) →
       client_set_certificate certSession 3 [9] = .ok certSession3 →
       ∀ p : List Nat, some p ∈ certSession3.certs → p ≠ [])) :=
  ⟨⟨rfl, by decide, by decide⟩,
   set_certificate_empty_rejected certSession 0 3 [9] certSession3 rfl (by decide)
     (by decide)⟩

/-- C8: on an open well-formed session, `get_attestation` resolves the
document's certificate field by scanning certificate slots 0 through 3 in
ascending order and taking the first present payload (or none when all
four are empty), and this resolution never fails: `_first_certificate`
returns exactly the spec's `first_present()` value. -/
theorem first_certificate_resolution (s : Session)
    (ud pk n : Option (List Nat)) (hwf : s.wf) (hopen : s.closed = false) :
    first_certificate s = .ok (firstPresentSpec s.certs) ∧
    ∃ p, transport_get_attestation s ud pk n = .ok p ∧
      p.certificate = firstPresentSpec s.certs :=
  ⟨first_certificate_wf s hwf hopen,
   ⟨_, transport_get_attestation_wf s ud pk n hwf hopen, rfl⟩⟩

theorem first_certificate_resolution_witness :
    (certSession.wf ∧ certSession.closed = false) ∧
    (first_certificate certSession = .ok (firstPresentSpec certSession.certs) ∧
     ∃ p, transport_get_attestation certSession none none none = .ok p ∧
       p.certificate = firstPresentSpec certSession.certs) :=
  ⟨⟨by decide, rfl⟩,
   first_certificate_resolution certSession none none none (by decide) rfl⟩

/-- C9: during `get_attestation` on an open session, any failure raised in
the try block that reads the PCR digests and the per-slot lock flags is
caught and re-raised as the `AttestationFailed` kind
(`NsmAttestationError`) carrying the original exception as its cause; the
error is not surfaced under its original kind. -/
theorem attestation_error_wrapping (s : Session)
    (ud pk n : Option (List Nat)) (e : NsmExc)
    (hopen : s.closed = false)
    (herr : attestation_try_block s ud pk n = .error e) :
    transport_get_attestation s ud pk n =
      .error (.wrapped .attestation "Unable to build attestation payload" e) ∧
    NsmExc.kind
      (.wrapped .attestation "Unable to build attestation payload" e) =
      .attestation ∧
    NsmExc.cause
      (.wrapped .attestation "Unable to build attestation payload" e) =
      some e := by
  refine ⟨?_, rfl, rfl⟩
  simp only [transport_get_attestation, nsm_session_is_closed, hopen,
    Bool.false_eq_true, if_false, herr]

theorem attestation_error_wrapping_witness :
    (truncatedSession.closed = false ∧
      attestation_try_block truncatedSession none none none =
        .error (.exc .invalidPcr "PCR slot 0 is out of range")) ∧
    (transport_get_attestation truncatedSession none none none =
        .error (.wrapped .attestation "Unable to build attestation payload"
          (.exc .invalidPcr "PCR slot 0 is out of range")) ∧
     NsmExc.kind (.wrapped .attestation "Unable to build attestation payload"
          (.exc .invalidPcr "PCR slot 0 is out of range")) = .attestation ∧
     NsmExc.cause (.wrapped .attestation "Unable to build attestation payload"
          (.exc .invalidPcr "PCR slot 0 is out of range")) =
        some (.exc .invalidPcr "PCR slot 0 is out of range")) :=
  ⟨⟨rfl, rfl⟩,
   attestation_error_wrapping truncatedSession none none none
     (.exc .invalidPcr "PCR slot 0 is out of range") rfl rfl⟩
